import Mathlib

/-!
Verification development for the wallbreaker webhook ingestion subsystem.

The definitions below are a shallow embedding of the TypeScript sources:
  - src/lib/webhooks/verify.ts        (signature verification)
  - src/schemas/webhooks.ts           (the twelve-shape discriminated union)
  - src/api/webhooks/fourthwall.ts    (ingestion pipeline, normalizer, getWebhookId)
  - src/lib/db/webhooks.ts            (idempotency store)
  - src/lib/db/ecommerce.ts, analytics queries (insertEcommerceEvent, revenue,
    purchase count, average order value, top products)

JavaScript numbers are modelled as rationals (ℚ); the claims under study only
copy, add, divide and compare these values, which the rationals model exactly for
the decimal literals involved.  Stateful code (the D1 database) is modelled as
explicit record-of-lists state passed through each operation.  Wall-clock reads
(Date.now()) and Math.random() are explicit parameters.  The HMAC-SHA256-base64
computation performed through crypto.subtle is an uninterpreted function
parameter: the claims quantify over it.
-/

/-- js string.charCodeAt model: the code of the character at index `i`
(out-of-range reads are irrelevant because the caller checks lengths first). -/
def charCodeAt (s : String) (i : Nat) : Nat :=
  (s.data.getD i (Char.ofNat 0)).toNat

/-- Embedding of timingSafeEqual from src/lib/webhooks/verify.ts lines 61-72:
an equal-length check followed by an OR-accumulation of the XOR of every
character code, compared with 0 at the end. -/
def timingSafeEqual (a b : String) : Bool :=
  if a.length != b.length then
    false
  else
    ((List.range a.length).foldl
      (fun result i => result ||| (charCodeAt a i ^^^ charCodeAt b i)) 0) == 0

/-- Embedding of the body of verifyWebhookSignature after the digest has been
computed (verify.ts lines 21-52): the whole body sits in a try/catch, so a
failing digest computation (missing secret, crypto error) is an `Except.error`
and yields `false`; a successful computation compares with `timingSafeEqual`. -/
def verifyWebhookSignatureSafe (digest : Except String String) (signature : String) : Bool :=
  match digest with
  | Except.error _ => false
  | Except.ok d => timingSafeEqual d signature

/-- Embedding of verifyWebhookSignature (verify.ts lines 16-53).
`hmacSha256Base64 secret payload` is the uninterpreted model of the
base64-encoded HMAC-SHA256 digest of `payload` keyed by `secret`. -/
def verifyWebhookSignature (hmacSha256Base64 : String → String → String)
    (payload signature secret : String) : Bool :=
  verifyWebhookSignatureSafe (Except.ok (hmacSha256Base64 secret payload)) signature

lemma nat_lor_eq_zero {a b : Nat} : a ||| b = 0 ↔ a = 0 ∧ b = 0 := by
  constructor
  · intro h
    have key : ∀ (x y : Nat), x ||| y = 0 → x = 0 := by
      intro x y hxy
      apply Nat.eq_of_testBit_eq
      intro i
      have h1 := congrArg (fun n => Nat.testBit n i) hxy
      simp only [Nat.testBit_or] at h1
      simp only [Nat.zero_testBit]
      cases hb : x.testBit i <;> simp [hb] at h1 ⊢
    exact ⟨key a b h, key b a (by rwa [Nat.lor_comm] at h)⟩
  · rintro ⟨rfl, rfl⟩
    rfl

lemma foldl_or_eq_zero (f : Nat → Nat) (l : List Nat) (acc : Nat) :
    (l.foldl (fun r i => r ||| f i) acc = 0) ↔ (acc = 0 ∧ ∀ i ∈ l, f i = 0) := by
  induction l generalizing acc with
  | nil => simp
  | cons x xs ih =>
    simp only [List.foldl_cons, ih, nat_lor_eq_zero, List.mem_cons]
    constructor
    · rintro ⟨⟨h1, h2⟩, h3⟩
      exact ⟨h1, fun i hi => hi.elim (fun he => he ▸ h2) (h3 i)⟩
    · rintro ⟨h1, h2⟩
      exact ⟨⟨h1, h2 x (Or.inl rfl)⟩, fun i hi => h2 i (Or.inr hi)⟩

lemma char_toNat_injective {a b : Char} (h : a.toNat = b.toNat) : a = b := by
  apply Char.ext
  unfold Char.toNat at h
  exact UInt32.toNat.inj h

lemma timingSafeEqual_iff (a b : String) : timingSafeEqual a b = true ↔ a = b := by
  unfold timingSafeEqual
  by_cases hlen : a.length = b.length
  · simp only [hlen, bne_self_eq_false, Bool.false_eq_true, if_false, beq_iff_eq]
    rw [foldl_or_eq_zero]
    constructor
    · rintro ⟨-, hall⟩
      apply String.ext
      have hdlen : a.data.length = b.data.length := hlen
      apply List.ext_getElem hdlen
      intro n h₁ h₂
      have hn := hall n (List.mem_range.mpr (show n < b.length from h₂))
      rw [Nat.xor_eq_zero] at hn
      apply char_toNat_injective
      unfold charCodeAt at hn
      rwa [List.getD_eq_getElem _ _ h₁, List.getD_eq_getElem _ _ h₂] at hn
    · rintro rfl
      exact ⟨rfl, fun i _ => by rw [Nat.xor_eq_zero]⟩
  · simp only [bne_iff_ne, ne_eq, hlen, not_false_iff, if_true]
    constructor
    · intro h
      exact absurd h (by simp)
    · intro h
      exact absurd (congrArg String.length h) hlen

/-- C2: verifyWebhookSignature returns true exactly when the presented signature
equals the base64 HMAC-SHA256 digest of the raw body keyed by the secret;
the underlying timingSafeEqual comparison returns true iff its two strings are
equal (equal-length check plus XOR-accumulation over all characters); and an
internal exception in the digest computation makes the verifier return false
rather than throw. -/
theorem signature_verification_correct :
    (∀ a b : String, timingSafeEqual a b = true ↔ a = b) ∧
    (∀ (hmacSha256Base64 : String → String → String) (payload signature secret : String),
      verifyWebhookSignature hmacSha256Base64 payload signature secret = true ↔
        signature = hmacSha256Base64 secret payload) ∧
    (∀ (e : String) (signature : String),
      verifyWebhookSignatureSafe (Except.error e) signature = false) := by
  refine ⟨timingSafeEqual_iff, fun hmac p sig secret => ?_, fun e sig => rfl⟩
  unfold verifyWebhookSignature verifyWebhookSignatureSafe
  rw [timingSafeEqual_iff]
  exact eq_comm

/-!
Data model of the twelve webhook payload shapes, embedded from
src/schemas/webhooks.ts.  Optional schema fields become `Option`;
`nullable().optional()` fields are collapsed to a single `Option` (the claims
never distinguish null from absent).  `z.number()` is ℚ, `z.number().int()` is ℤ.
-/

structure Money where
  value : Rat
  currency : String
deriving DecidableEq, Repr

structure Address where
  name : String
  address1 : String
  address2 : Option String
  city : String
  state : String
  country : String
  zip : String
  phone : Option String
deriving DecidableEq, Repr

structure Image where
  id : String
  url : String
  width : Rat
  height : Rat
deriving DecidableEq, Repr

structure ColorAttribute where
  name : String
  swatch : String
deriving DecidableEq, Repr

structure SizeAttribute where
  name : String
deriving DecidableEq, Repr

structure OfferVariantAttributes where
  description : Option String
  color : Option ColorAttribute
  size : Option SizeAttribute
deriving DecidableEq, Repr

structure OfferVariant where
  id : String
  name : String
  sku : String
  unitPrice : Money
  quantity : Int
  price : Money
  attributes : Option OfferVariantAttributes
deriving DecidableEq, Repr

structure Offer where
  id : String
  name : String
  slug : String
  description : Option String
  primaryImage : Option Image
  variant : OfferVariant
deriving DecidableEq, Repr

structure OrderAmounts where
  subtotal : Money
  shipping : Money
  tax : Money
  donation : Option Money
  discount : Option Money
  total : Money
deriving DecidableEq, Repr

inductive SourceType
  | order
  | samplesOrder
  | twitchGiftRedemption
  | giveawayLinks
deriving DecidableEq, Repr

/-- The fields of an ORDER_PLACED payload (sans the literal tag, which the
discriminated-union constructor carries); ORDER_UPDATED nests exactly this
shape under its `order` field (OrderPlacedPayloadSchema.omit type). -/
structure OrderPlacedPayload where
  id : String
  shopId : String
  friendlyId : String
  checkoutId : String
  promotionId : Option String
  status : String
  email : String
  emailMarketingOptIn : Bool
  username : Option String
  message : Option String
  amounts : OrderAmounts
  billingAddress : Address
  shippingAddress : Address
  offers : List Offer
  source : SourceType
  createdAt : String
  updatedAt : String
deriving DecidableEq, Repr

structure GiftAmounts where
  subtotal : Money
  tax : Money
  discount : Option Money
  total : Money
deriving DecidableEq, Repr

structure GiftRecipient where
  email : String
  message : Option String
deriving DecidableEq, Repr

structure GiftSender where
  email : String
  username : Option String
deriving DecidableEq, Repr

structure GiftPurchasePayload where
  id : String
  shopId : String
  friendlyId : String
  checkoutId : String
  recipient : GiftRecipient
  sender : GiftSender
  status : String
  amounts : GiftAmounts
  billingAddress : Address
  createdAt : String
  updatedAt : String
deriving DecidableEq, Repr

structure DonationAmounts where
  total : Money
deriving DecidableEq, Repr

structure DonationPayload where
  id : String
  shopId : String
  email : String
  username : Option String
  message : Option String
  amounts : DonationAmounts
  createdAt : String
  updatedAt : String
deriving DecidableEq, Repr

inductive StockType
  | limited
  | unlimited
  | outOfStock
deriving DecidableEq, Repr

structure ProductStock where
  type : StockType
  inStock : Option Rat
deriving DecidableEq, Repr

structure ProductDimensions where
  length : Rat
  width : Rat
  height : Rat
  unit : String
deriving DecidableEq, Repr

structure ProductWeight where
  value : Rat
  unit : String
deriving DecidableEq, Repr

structure ProductVariant where
  id : String
  name : String
  sku : String
  unitPrice : Money
  attributes : Option OfferVariantAttributes
  stock : ProductStock
  weight : Option ProductWeight
  dimensions : Option ProductDimensions
  images : Option (List Image)
deriving DecidableEq, Repr

inductive ProductStateType
  | available
  | unavailable
  | draft
deriving DecidableEq, Repr

/-- The fields of a PRODUCT_CREATED payload (sans the tag); PRODUCT_UPDATED nests
exactly this shape under its `product` field. -/
structure ProductCreatedPayload where
  id : String
  name : String
  slug : String
  description : Option String
  state : ProductStateType
  images : Option (List Image)
  variants : List ProductVariant
  createdAt : String
  updatedAt : String
deriving DecidableEq, Repr

inductive SubscriptionInterval
  | monthly
  | yearly
deriving DecidableEq, Repr

structure SubscriptionVariant where
  id : String
  tierId : String
  interval : SubscriptionInterval
  amount : Money
deriving DecidableEq, Repr

/-- SUBSCRIPTION_PURCHASED / SUBSCRIPTION_CHANGED / SUBSCRIPTION_EXPIRED share
this shape; the literal subscription.type tag (ACTIVE vs CANCELLED) is enforced
by the parser and carried by the payload constructor, not stored here. -/
structure SubscriptionPayload where
  id : String
  email : String
  nickname : Option String
  variant : SubscriptionVariant
deriving DecidableEq, Repr

inductive ContributionType
  | order
  | donation
  | giftPurchase
deriving DecidableEq, Repr

structure ThankYouSupporter where
  email : String
  username : Option String
  message : Option String
deriving DecidableEq, Repr

structure ThankYouContribution where
  type : ContributionType
  id : String
  shopId : String
  supporter : ThankYouSupporter
deriving DecidableEq, Repr

structure ThankYouSentPayload where
  id : String
  mediaUrl : String
  contribution : ThankYouContribution
deriving DecidableEq, Repr

structure NewsletterSubscribedPayload where
  email : String
deriving DecidableEq, Repr

structure PlatformAppDisconnectedPayload where
  appId : String
  shopId : String
deriving DecidableEq, Repr

/-- FourthwallWebhookPayload: the closed discriminated union of the twelve
recognized webhook shapes (webhooks.ts lines 322-335). -/
inductive FourthwallWebhookPayload
  | orderPlaced (p : OrderPlacedPayload)
  | orderUpdated (order : OrderPlacedPayload)
  | giftPurchase (p : GiftPurchasePayload)
  | donation (p : DonationPayload)
  | productCreated (p : ProductCreatedPayload)
  | productUpdated (product : ProductCreatedPayload)
  | subscriptionPurchased (p : SubscriptionPayload)
  | subscriptionChanged (p : SubscriptionPayload)
  | subscriptionExpired (p : SubscriptionPayload)
  | thankYouSent (p : ThankYouSentPayload)
  | newsletterSubscribed (p : NewsletterSubscribedPayload)
  | platformAppDisconnected (p : PlatformAppDisconnectedPayload)
deriving DecidableEq, Repr

/-- The `type` discriminator tag of each payload shape. -/
def FourthwallWebhookPayload.eventType : FourthwallWebhookPayload → String
  | .orderPlaced _ => "ORDER_PLACED"
  | .orderUpdated _ => "ORDER_UPDATED"
  | .giftPurchase _ => "GIFT_PURCHASE"
  | .donation _ => "DONATION"
  | .productCreated _ => "PRODUCT_CREATED"
  | .productUpdated _ => "PRODUCT_UPDATED"
  | .subscriptionPurchased _ => "SUBSCRIPTION_PURCHASED"
  | .subscriptionChanged _ => "SUBSCRIPTION_CHANGED"
  | .subscriptionExpired _ => "SUBSCRIPTION_EXPIRED"
  | .thankYouSent _ => "THANK_YOU_SENT"
  | .newsletterSubscribed _ => "NEWSLETTER_SUBSCRIBED"
  | .platformAppDisconnected _ => "PLATFORM_APP_DISCONNECTED"

/-!
JSON values and the validation layer.  `Json` models a parsed JSON document
(the output of JSON.parse); the parsers below embed the zod schemas of
src/schemas/webhooks.ts, run by FourthwallWebhookPayloadSchema.safeParse.
Per zod semantics, unknown object keys are ignored, required keys must be
present with the right type, `.optional()` accepts a missing key, and
`.nullable().optional()` additionally accepts an explicit null.
-/

inductive Json
  | null
  | bool (b : Bool)
  | num (q : Rat)
  | str (s : String)
  | arr (xs : List Json)
  | obj (fields : List (String × Json))

def Json.getField : Json → String → Option Json
  | .obj fields, key => fields.lookup key
  | _, _ => none

def Json.asStr : Json → Option String
  | .str s => some s
  | _ => none

def Json.asNum : Json → Option Rat
  | .num q => some q
  | _ => none

def Json.asBool : Json → Option Bool
  | .bool b => some b
  | _ => none

def Json.asInt : Json → Option Int
  | .num q => if q.den = 1 then some q.num else none
  | _ => none

/-- Required field of an object, parsed by `p`; missing or ill-typed fails. -/
def reqField (j : Json) (key : String) (p : Json → Option α) : Option α :=
  (j.getField key).bind p

/-- Optional field (zod `.optional()`): absent is fine, present must parse. -/
def optField (j : Json) (key : String) (p : Json → Option α) : Option (Option α) :=
  match j.getField key with
  | none => some none
  | some v => (p v).map some

/-- Nullable optional field (zod `.nullable().optional()`): absent or null is
fine, any other value must parse. -/
def nullOptField (j : Json) (key : String) (p : Json → Option α) : Option (Option α) :=
  match j.getField key with
  | none => some none
  | some Json.null => some none
  | some v => (p v).map some

def parseArray (p : Json → Option α) : Json → Option (List α)
  | .arr xs => xs.mapM p
  | _ => none

/-- List-of-characters split on a given character, used to model the regex
checks that zod string refinements perform. -/
def splitOnChar (c : Char) : List Char → List (List Char)
  | [] => [[]]
  | x :: xs =>
    let rest := splitOnChar c xs
    if x == c then [] :: rest
    else
      match rest with
      | [] => [[x]]
      | h :: t => (x :: h) :: t

/-- js String.prototype.includes model: substring containment. -/
def jsIncludes (s sub : String) : Bool :=
  decide (sub.data <:+: s.data)

def isLocalPartChar (c : Char) : Bool :=
  c.isAlphanum || c == '_' || c == Char.ofNat 39 || c == '+' || c == '-' || c == '.'

def isLocalPartEndChar (c : Char) : Bool :=
  c.isAlphanum || c == '_' || c == '+' || c == '-'

def isDomainLabelOk (l : List Char) : Bool :=
  match l with
  | [] => false
  | c :: rest => c.isAlphanum && rest.all (fun x => x.isAlphanum || x == '-')

def isTldOk (l : List Char) : Bool :=
  decide (2 ≤ l.length) && l.all Char.isAlpha

/-- Modelled from zod's z.string().email() refinement regex
(no leading dot, no double dot, a restricted local part ending in an
alphanumeric/underscore/plus/minus character, one at-sign, one or more
alphanumeric-starting domain labels, and an alphabetic TLD of length ≥ 2). -/
def isEmail (s : String) : Bool :=
  !(jsIncludes s "..") &&
  match splitOnChar '@' s.data with
  | [localPart, domain] =>
    (match localPart with
     | [] => false
     | c :: _ => !(c == '.')) &&
    localPart.all isLocalPartChar &&
    (match localPart.reverse with
     | [] => false
     | c :: _ => isLocalPartEndChar c) &&
    (let labels := splitOnChar '.' domain
     decide (2 ≤ labels.length) &&
     labels.dropLast.all isDomainLabelOk &&
     (match labels.getLast? with
      | some t => isTldOk t
      | none => false))
  | _ => false

/-- Modelled from zod's z.string().url() refinement (the runtime accepts exactly
the strings the WHATWG URL constructor accepts; this model checks for an
alphabetic scheme followed by a colon, which is the part the schemas rely on). -/
def isValidURL (s : String) : Bool :=
  match splitOnChar ':' s.data with
  | scheme :: _ :: _ =>
    (match scheme with
     | [] => false
     | c :: rest => c.isAlpha && rest.all (fun x => x.isAlphanum || x == '+' || x == '-' || x == '.'))
  | _ => false

def parseEmailStr (j : Json) : Option String :=
  (j.asStr).bind (fun s => if isEmail s then some s else none)

def parseUrlStr (j : Json) : Option String :=
  (j.asStr).bind (fun s => if isValidURL s then some s else none)

def parseMoney (j : Json) : Option Money := do
  let value ← reqField j "value" Json.asNum
  let currency ← reqField j "currency" Json.asStr
  pure { value := value, currency := currency }

def parseAddress (j : Json) : Option Address := do
  let name ← reqField j "name" Json.asStr
  let address1 ← reqField j "address1" Json.asStr
  let address2 ← nullOptField j "address2" Json.asStr
  let city ← reqField j "city" Json.asStr
  let state ← reqField j "state" Json.asStr
  let country ← reqField j "country" Json.asStr
  let zip ← reqField j "zip" Json.asStr
  let phone ← nullOptField j "phone" Json.asStr
  pure { name := name, address1 := address1, address2 := address2, city := city,
         state := state, country := country, zip := zip, phone := phone }

def parseImage (j : Json) : Option Image := do
  let id ← reqField j "id" Json.asStr
  let url ← reqField j "url" parseUrlStr
  let width ← reqField j "width" Json.asNum
  let height ← reqField j "height" Json.asNum
  pure { id := id, url := url, width := width, height := height }

def parseColorAttribute (j : Json) : Option ColorAttribute := do
  let name ← reqField j "name" Json.asStr
  let swatch ← reqField j "swatch" Json.asStr
  pure { name := name, swatch := swatch }

def parseSizeAttribute (j : Json) : Option SizeAttribute := do
  let name ← reqField j "name" Json.asStr
  pure { name := name }

def parseOfferVariantAttributes (j : Json) : Option OfferVariantAttributes := do
  let description ← optField j "description" Json.asStr
  let color ← optField j "color" parseColorAttribute
  let size ← optField j "size" parseSizeAttribute
  pure { description := description, color := color, size := size }

def parseOfferVariant (j : Json) : Option OfferVariant := do
  let id ← reqField j "id" Json.asStr
  let name ← reqField j "name" Json.asStr
  let sku ← reqField j "sku" Json.asStr
  let unitPrice ← reqField j "unitPrice" parseMoney
  let quantity ← reqField j "quantity" Json.asInt
  let price ← reqField j "price" parseMoney
  let attributes ← optField j "attributes" parseOfferVariantAttributes
  pure { id := id, name := name, sku := sku, unitPrice := unitPrice,
         quantity := quantity, price := price, attributes := attributes }

def parseOffer (j : Json) : Option Offer := do
  let id ← reqField j "id" Json.asStr
  let name ← reqField j "name" Json.asStr
  let slug ← reqField j "slug" Json.asStr
  let description ← optField j "description" Json.asStr
  let primaryImage ← optField j "primaryImage" parseImage
  let variant ← reqField j "variant" parseOfferVariant
  pure { id := id, name := name, slug := slug, description := description,
         primaryImage := primaryImage, variant := variant }

def parseOrderAmounts (j : Json) : Option OrderAmounts := do
  let subtotal ← reqField j "subtotal" parseMoney
  let shipping ← reqField j "shipping" parseMoney
  let tax ← reqField j "tax" parseMoney
  let donation ← optField j "donation" parseMoney
  let discount ← optField j "discount" parseMoney
  let total ← reqField j "total" parseMoney
  pure { subtotal := subtotal, shipping := shipping, tax := tax,
         donation := donation, discount := discount, total := total }

def parseSourceType (j : Json) : Option SourceType := do
  let t ← j.asStr
  if t = "ORDER" then pure SourceType.order
  else if t = "SAMPLES_ORDER" then pure SourceType.samplesOrder
  else if t = "TWITCH_GIFT_REDEMPTION" then pure SourceType.twitchGiftRedemption
  else if t = "GIVEAWAY_LINKS" then pure SourceType.giveawayLinks
  else none

/-- Field validation shared by OrderPlacedPayloadSchema and the nested
OrderPlacedPayloadSchema.omit type inside ORDER_UPDATED (the discriminator
literal itself is checked by the union dispatch, not here). -/
def parseOrderPlacedFields (j : Json) : Option OrderPlacedPayload := do
  let id ← reqField j "id" Json.asStr
  let shopId ← reqField j "shopId" Json.asStr
  let friendlyId ← reqField j "friendlyId" Json.asStr
  let checkoutId ← reqField j "checkoutId" Json.asStr
  let promotionId ← optField j "promotionId" Json.asStr
  let status ← reqField j "status" Json.asStr
  let email ← reqField j "email" parseEmailStr
  let emailMarketingOptIn ← reqField j "emailMarketingOptIn" Json.asBool
  let username ← optField j "username" Json.asStr
  let message ← optField j "message" Json.asStr
  let amounts ← reqField j "amounts" parseOrderAmounts
  let billingAddress ← reqField j "billing" (fun b => reqField b "address" parseAddress)
  let shippingAddress ← reqField j "shipping" (fun b => reqField b "address" parseAddress)
  let offers ← reqField j "offers" (parseArray parseOffer)
  let source ← reqField j "source" (fun s => reqField s "type" parseSourceType)
  let createdAt ← reqField j "createdAt" Json.asStr
  let updatedAt ← reqField j "updatedAt" Json.asStr
  pure { id := id, shopId := shopId, friendlyId := friendlyId, checkoutId := checkoutId,
         promotionId := promotionId, status := status, email := email,
         emailMarketingOptIn := emailMarketingOptIn, username := username,
         message := message, amounts := amounts, billingAddress := billingAddress,
         shippingAddress := shippingAddress, offers := offers, source := source,
         createdAt := createdAt, updatedAt := updatedAt }

def parseGiftAmounts (j : Json) : Option GiftAmounts := do
  let subtotal ← reqField j "subtotal" parseMoney
  let tax ← reqField j "tax" parseMoney
  let discount ← optField j "discount" parseMoney
  let total ← reqField j "total" parseMoney
  pure { subtotal := subtotal, tax := tax, discount := discount, total := total }

def parseGiftPurchaseFields (j : Json) : Option GiftPurchasePayload := do
  let id ← reqField j "id" Json.asStr
  let shopId ← reqField j "shopId" Json.asStr
  let friendlyId ← reqField j "friendlyId" Json.asStr
  let checkoutId ← reqField j "checkoutId" Json.asStr
  let recipient ← reqField j "recipient" (fun r => do
    let email ← reqField r "email" parseEmailStr
    let message ← optField r "message" Json.asStr
    pure (GiftRecipient.mk email message))
  let sender ← reqField j "sender" (fun r => do
    let email ← reqField r "email" parseEmailStr
    let username ← optField r "username" Json.asStr
    pure (GiftSender.mk email username))
  let status ← reqField j "status" Json.asStr
  let amounts ← reqField j "amounts" parseGiftAmounts
  let billingAddress ← reqField j "billing" (fun b => reqField b "address" parseAddress)
  let createdAt ← reqField j "createdAt" Json.asStr
  let updatedAt ← reqField j "updatedAt" Json.asStr
  pure { id := id, shopId := shopId, friendlyId := friendlyId, checkoutId := checkoutId,
         recipient := recipient, sender := sender, status := status, amounts := amounts,
         billingAddress := billingAddress, createdAt := createdAt, updatedAt := updatedAt }

def parseDonationFields (j : Json) : Option DonationPayload := do
  let id ← reqField j "id" Json.asStr
  let shopId ← reqField j "shopId" Json.asStr
  let email ← reqField j "email" parseEmailStr
  let username ← optField j "username" Json.asStr
  let message ← optField j "message" Json.asStr
  let amounts ← reqField j "amounts" (fun a => do
    let total ← reqField a "total" parseMoney
    pure (DonationAmounts.mk total))
  let createdAt ← reqField j "createdAt" Json.asStr
  let updatedAt ← reqField j "updatedAt" Json.asStr
  pure { id := id, shopId := shopId, email := email, username := username,
         message := message, amounts := amounts, createdAt := createdAt,
         updatedAt := updatedAt }

def parseStockType (j : Json) : Option StockType := do
  let t ← j.asStr
  if t = "LIMITED" then pure StockType.limited
  else if t = "UNLIMITED" then pure StockType.unlimited
  else if t = "OUT_OF_STOCK" then pure StockType.outOfStock
  else none

def parseProductStock (j : Json) : Option ProductStock := do
  let type ← reqField j "type" parseStockType
  let inStock ← optField j "inStock" Json.asNum
  pure { type := type, inStock := inStock }

def parseProductDimensions (j : Json) : Option ProductDimensions := do
  let length ← reqField j "length" Json.asNum
  let width ← reqField j "width" Json.asNum
  let height ← reqField j "height" Json.asNum
  let unit ← reqField j "unit" Json.asStr
  pure { length := length, width := width, height := height, unit := unit }

def parseProductWeight (j : Json) : Option ProductWeight := do
  let value ← reqField j "value" Json.asNum
  let unit ← reqField j "unit" Json.asStr
  pure { value := value, unit := unit }

def parseProductVariant (j : Json) : Option ProductVariant := do
  let id ← reqField j "id" Json.asStr
  let name ← reqField j "name" Json.asStr
  let sku ← reqField j "sku" Json.asStr
  let unitPrice ← reqField j "unitPrice" parseMoney
  let attributes ← optField j "attributes" parseOfferVariantAttributes
  let stock ← reqField j "stock" parseProductStock
  let weight ← optField j "weight" parseProductWeight
  let dimensions ← optField j "dimensions" parseProductDimensions
  let images ← optField j "images" (parseArray parseImage)
  pure { id := id, name := name, sku := sku, unitPrice := unitPrice,
         attributes := attributes, stock := stock, weight := weight,
         dimensions := dimensions, images := images }

def parseProductStateType (j : Json) : Option ProductStateType := do
  let t ← j.asStr
  if t = "AVAILABLE" then pure ProductStateType.available
  else if t = "UNAVAILABLE" then pure ProductStateType.unavailable
  else if t = "DRAFT" then pure ProductStateType.draft
  else none

/-- Field validation shared by ProductCreatedPayloadSchema and the nested
shape inside PRODUCT_UPDATED. -/
def parseProductCreatedFields (j : Json) : Option ProductCreatedPayload := do
  let id ← reqField j "id" Json.asStr
  let name ← reqField j "name" Json.asStr
  let slug ← reqField j "slug" Json.asStr
  let description ← optField j "description" Json.asStr
  let state ← reqField j "state" (fun s => reqField s "type" parseProductStateType)
  let images ← optField j "images" (parseArray parseImage)
  let variants ← reqField j "variants" (parseArray parseProductVariant)
  let createdAt ← reqField j "createdAt" Json.asStr
  let updatedAt ← reqField j "updatedAt" Json.asStr
  pure { id := id, name := name, slug := slug, description := description,
         state := state, images := images, variants := variants,
         createdAt := createdAt, updatedAt := updatedAt }

def parseSubscriptionInterval (j : Json) : Option SubscriptionInterval := do
  let t ← j.asStr
  if t = "MONTHLY" then pure SubscriptionInterval.monthly
  else if t = "YEARLY" then pure SubscriptionInterval.yearly
  else none

def parseSubscriptionVariant (j : Json) : Option SubscriptionVariant := do
  let id ← reqField j "id" Json.asStr
  let tierId ← reqField j "tierId" Json.asStr
  let interval ← reqField j "interval" parseSubscriptionInterval
  let amount ← reqField j "amount" parseMoney
  pure { id := id, tierId := tierId, interval := interval, amount := amount }

/-- Field validation shared by the three subscription payload schemas;
`subTypeLit` is the literal required for subscription.type (ACTIVE for
purchased/changed, CANCELLED for expired). -/
def parseSubscriptionFields (subTypeLit : String) (j : Json) : Option SubscriptionPayload := do
  let id ← reqField j "id" Json.asStr
  let email ← reqField j "email" parseEmailStr
  let nickname ← optField j "nickname" Json.asStr
  let variant ← reqField j "subscription" (fun s => do
    let t ← reqField s "type" Json.asStr
    if t = subTypeLit then reqField s "variant" parseSubscriptionVariant else none)
  pure { id := id, email := email, nickname := nickname, variant := variant }

def parseContributionType (j : Json) : Option ContributionType := do
  let t ← j.asStr
  if t = "ORDER" then pure ContributionType.order
  else if t = "DONATION" then pure ContributionType.donation
  else if t = "GIFT_PURCHASE" then pure ContributionType.giftPurchase
  else none

def parseThankYouSentFields (j : Json) : Option ThankYouSentPayload := do
  let id ← reqField j "id" Json.asStr
  let mediaUrl ← reqField j "mediaUrl" parseUrlStr
  let contribution ← reqField j "contribution" (fun c => do
    let type ← reqField c "type" parseContributionType
    let cid ← reqField c "id" Json.asStr
    let shopId ← reqField c "shopId" Json.asStr
    let supporter ← reqField c "supporter" (fun s => do
      let email ← reqField s "email" parseEmailStr
      let username ← optField s "username" Json.asStr
      let message ← optField s "message" Json.asStr
      pure (ThankYouSupporter.mk email username message))
    pure (ThankYouContribution.mk type cid shopId supporter))
  pure { id := id, mediaUrl := mediaUrl, contribution := contribution }

def parseNewsletterSubscribedFields (j : Json) : Option NewsletterSubscribedPayload := do
  let email ← reqField j "email" parseEmailStr
  pure { email := email }

def parsePlatformAppDisconnectedFields (j : Json) : Option PlatformAppDisconnectedPayload := do
  let appId ← reqField j "appId" Json.asStr
  let shopId ← reqField j "shopId" Json.asStr
  pure { appId := appId, shopId := shopId }

/-- The twelve discriminator tags of FourthwallWebhookPayloadSchema, in schema
declaration order. -/
def knownEventTags : List String :=
  ["ORDER_PLACED", "ORDER_UPDATED", "GIFT_PURCHASE", "DONATION",
   "PRODUCT_CREATED", "PRODUCT_UPDATED", "SUBSCRIPTION_PURCHASED",
   "SUBSCRIPTION_CHANGED", "SUBSCRIPTION_EXPIRED", "THANK_YOU_SENT",
   "NEWSLETTER_SUBSCRIBED", "PLATFORM_APP_DISCONNECTED"]

/-- Embedding of FourthwallWebhookPayloadSchema.safeParse: zod's
discriminatedUnion looks up the string under the `type` key and runs the
matching option schema; a missing, non-string, or unrecognized discriminator
fails validation. -/
def fourthwallSafeParse (j : Json) : Option FourthwallWebhookPayload :=
  match j.getField "type" with
  | some (Json.str t) =>
    if t = "ORDER_PLACED" then
      (parseOrderPlacedFields j).map FourthwallWebhookPayload.orderPlaced
    else if t = "ORDER_UPDATED" then
      (reqField j "order" parseOrderPlacedFields).map FourthwallWebhookPayload.orderUpdated
    else if t = "GIFT_PURCHASE" then
      (parseGiftPurchaseFields j).map FourthwallWebhookPayload.giftPurchase
    else if t = "DONATION" then
      (parseDonationFields j).map FourthwallWebhookPayload.donation
    else if t = "PRODUCT_CREATED" then
      (parseProductCreatedFields j).map FourthwallWebhookPayload.productCreated
    else if t = "PRODUCT_UPDATED" then
      (reqField j "product" parseProductCreatedFields).map FourthwallWebhookPayload.productUpdated
    else if t = "SUBSCRIPTION_PURCHASED" then
      (parseSubscriptionFields "ACTIVE" j).map FourthwallWebhookPayload.subscriptionPurchased
    else if t = "SUBSCRIPTION_CHANGED" then
      (parseSubscriptionFields "ACTIVE" j).map FourthwallWebhookPayload.subscriptionChanged
    else if t = "SUBSCRIPTION_EXPIRED" then
      (parseSubscriptionFields "CANCELLED" j).map FourthwallWebhookPayload.subscriptionExpired
    else if t = "THANK_YOU_SENT" then
      (parseThankYouSentFields j).map FourthwallWebhookPayload.thankYouSent
    else if t = "NEWSLETTER_SUBSCRIBED" then
      (parseNewsletterSubscribedFields j).map FourthwallWebhookPayload.newsletterSubscribed
    else if t = "PLATFORM_APP_DISCONNECTED" then
      (parsePlatformAppDisconnectedFields j).map FourthwallWebhookPayload.platformAppDisconnected
    else none
  | _ => none

/-!
Database state and the persistence layer (src/lib/db/webhooks.ts,
src/lib/db/ecommerce.ts, migrations 0001 and 0002).  A D1 database is modelled
as two row lists; INSERT prepends the new row (row order is irrelevant to every
query modelled here).  Columns with DEFAULT (unixepoch()) receive the current
time in seconds.
-/

/-- The GA4 item object serialized into ecommerce_data by the handlers. -/
structure EcomItem where
  item_id : String
  item_name : String
  price : Rat
  quantity : Int
  item_brand : Option String
  item_category : Option String
  index : Option Nat
deriving DecidableEq, Repr

/-- The structured content of the ecommerce_data JSON column (the handlers
serialize exactly these fields with JSON.stringify). -/
structure EcomData where
  event_name : String
  transaction_id : String
  currency : String
  value : Rat
  tax : Option Rat
  shipping : Option Rat
  affiliation : String
  items : List EcomItem
deriving DecidableEq, Repr

/-- InsertEcommerceEvent: the argument shape accepted by insertEcommerceEvent
(database.ts InsertEcommerceEventSchema; fields the webhook handlers never set
are omitted by them and hence `none`). -/
structure InsertEcommerceEvent where
  event_name : String
  path : Option String := none
  locale : Option String := none
  currency : Option String := none
  value : Option Rat := none
  transaction_id : Option String := none
  tax : Option Rat := none
  shipping : Option Rat := none
  coupon : Option String := none
  ecommerce_data : EcomData
  user_agent : Option String := none
  country : Option String := none
deriving DecidableEq, Repr

/-- A row of the ecommerce_events table. -/
structure EcommerceRow where
  event_name : String
  path : Option String
  locale : Option String
  currency : Option String
  value : Option Rat
  transaction_id : Option String
  tax : Option Rat
  shipping : Option Rat
  coupon : Option String
  ecommerce_data : EcomData
  timestamp : Nat
  user_agent : Option String
  country : Option String
deriving DecidableEq, Repr

/-- A row of the webhook_events table. -/
structure WebhookRow where
  id : String
  event_type : String
  payload : String
  signature : String
  processed_at : Nat
  created_at : Nat
deriving DecidableEq, Repr

structure InsertWebhookEvent where
  id : String
  event_type : String
  payload : String
  signature : String
  processed_at : Nat
deriving DecidableEq, Repr

/-- The D1 database state relevant to the webhook pipeline. -/
structure Db where
  webhook_events : List WebhookRow
  ecommerce_events : List EcommerceRow
deriving DecidableEq, Repr

/-- js `x || null` on an optional number: 0 (falsy) and absent both become
NULL, every other number is kept. -/
def jsNumOrNull (x : Option Rat) : Option Rat :=
  match x with
  | some v => if v = 0 then none else some v
  | none => none

/-- js `x || null` on an optional string: "" (falsy) and absent both become
NULL, every other string is kept. -/
def jsStrOrNull (x : Option String) : Option String :=
  match x with
  | some s => if s = "" then none else some s
  | none => none

/-- js `x || undefined` on an optional string (used for the coupon field in
handleOrderPlaced): same collapse of falsy values. -/
def jsStrOrUndefined (x : Option String) : Option String :=
  jsStrOrNull x

/-- Embedding of insertEcommerceEvent (src/lib/db/ecommerce.ts lines 265-297):
every optional column is bound through `validated.field || null`, so a supplied
0 or "" is stored as NULL; ecommerce_data is bound as given; the timestamp
column takes its DEFAULT (unixepoch()), the current time in seconds. -/
def insertEcommerceEvent (db : Db) (e : InsertEcommerceEvent) (nowSec : Nat) : Db :=
  { db with ecommerce_events :=
      { event_name := e.event_name
        path := jsStrOrNull e.path
        locale := jsStrOrNull e.locale
        currency := jsStrOrNull e.currency
        value := jsNumOrNull e.value
        transaction_id := jsStrOrNull e.transaction_id
        tax := jsNumOrNull e.tax
        shipping := jsNumOrNull e.shipping
        coupon := jsStrOrNull e.coupon
        ecommerce_data := e.ecommerce_data
        timestamp := nowSec
        user_agent := jsStrOrNull e.user_agent
        country := jsStrOrNull e.country } :: db.ecommerce_events }

/-- Embedding of insertWebhookEvent (src/lib/db/webhooks.ts lines 15-45):
inserts the row; created_at takes its DEFAULT (unixepoch()). -/
def insertWebhookEvent (db : Db) (e : InsertWebhookEvent) (nowSec : Nat) : Db :=
  { db with webhook_events :=
      { id := e.id, event_type := e.event_type, payload := e.payload,
        signature := e.signature, processed_at := e.processed_at,
        created_at := nowSec } :: db.webhook_events }

/-- Embedding of webhookExists (src/lib/db/webhooks.ts lines 53-63):
SELECT id FROM webhook_events WHERE id = ? and test the result against null. -/
def webhookExists (db : Db) (webhookId : String) : Bool :=
  (db.webhook_events.find? (fun r => r.id == webhookId)).isSome

/-!
The ecommerce event normalizer: the three purchase-producing handlers of
src/api/webhooks/fourthwall.ts.  Each handler builds a GA4 purchase event and
inserts it; the surrounding try/catch only swallows storage errors, which the
pure model does not produce.
-/

/-- The GA4 purchase event built by handleOrderPlaced (fourthwall.ts lines
188-214): amounts copied from payload.amounts, one item per offer with its
position index. -/
def orderPlacedPurchaseEvent (p : OrderPlacedPayload) : InsertEcommerceEvent :=
  { event_name := "purchase"
    transaction_id := some p.id
    currency := some p.amounts.total.currency
    value := some p.amounts.total.value
    tax := some p.amounts.tax.value
    shipping := some p.amounts.shipping.value
    coupon := jsStrOrUndefined p.promotionId
    ecommerce_data :=
      { event_name := "purchase"
        transaction_id := p.id
        currency := p.amounts.total.currency
        value := p.amounts.total.value
        tax := some p.amounts.tax.value
        shipping := some p.amounts.shipping.value
        affiliation := "Fourthwall"
        items := p.offers.mapIdx (fun index offer =>
          { item_id := offer.variant.sku
            item_name := offer.name
            price := offer.variant.unitPrice.value
            quantity := offer.variant.quantity
            item_brand := some "Store"
            item_category := some offer.slug
            index := some index }) } }

/-- The GA4 purchase event built by handleGiftPurchase (fourthwall.ts lines
246-268): the transaction id is the raw payload id, with a single synthetic
GIFT item priced at the subtotal. -/
def giftPurchaseEvent (p : GiftPurchasePayload) : InsertEcommerceEvent :=
  { event_name := "purchase"
    transaction_id := some p.id
    currency := some p.amounts.total.currency
    value := some p.amounts.total.value
    tax := some p.amounts.tax.value
    ecommerce_data :=
      { event_name := "purchase"
        transaction_id := p.id
        currency := p.amounts.total.currency
        value := p.amounts.total.value
        tax := some p.amounts.tax.value
        shipping := none
        affiliation := "Fourthwall Gift"
        items := [{ item_id := "GIFT", item_name := "Gift Purchase",
                    price := p.amounts.subtotal.value, quantity := 1,
                    item_brand := none, item_category := none, index := none }] } }

def subscriptionIntervalLabel : SubscriptionInterval → String
  | .monthly => "MONTHLY"
  | .yearly => "YEARLY"

/-- The GA4 purchase event built by handleSubscriptionPurchased (fourthwall.ts
lines 320-341): the transaction id is the payload id under the SUB_ namespace. -/
def subscriptionPurchaseEvent (p : SubscriptionPayload) : InsertEcommerceEvent :=
  { event_name := "purchase"
    transaction_id := some ("SUB_" ++ p.id)
    currency := some p.variant.amount.currency
    value := some p.variant.amount.value
    ecommerce_data :=
      { event_name := "purchase"
        transaction_id := "SUB_" ++ p.id
        currency := p.variant.amount.currency
        value := p.variant.amount.value
        tax := none
        shipping := none
        affiliation := "Fourthwall Subscription"
        items := [{ item_id := p.variant.tierId,
                    item_name := "Membership - " ++ subscriptionIntervalLabel p.variant.interval,
                    price := p.variant.amount.value, quantity := 1,
                    item_brand := none, item_category := some "Subscription",
                    index := none }] } }

/-- The per-event-type dispatch (fourthwall.ts lines 105-156): the three
purchase-producing handlers insert an ecommerce event; every other handler only
logs (and leaves the database unchanged). -/
def dispatchWebhook (db : Db) (p : FourthwallWebhookPayload) (nowSec : Nat) : Db :=
  match p with
  | .orderPlaced o => insertEcommerceEvent db (orderPlacedPurchaseEvent o) nowSec
  | .giftPurchase g => insertEcommerceEvent db (giftPurchaseEvent g) nowSec
  | .subscriptionPurchased s => insertEcommerceEvent db (subscriptionPurchaseEvent s) nowSec
  | _ => db

/-- Embedding of getWebhookId (fourthwall.ts lines 410-428).  Payload shapes
with a top-level id use it; NEWSLETTER_SUBSCRIBED synthesizes a key from the
email and Date.now(); PLATFORM_APP_DISCONNECTED from appId and shopId; the
remaining shapes (ORDER_UPDATED, PRODUCT_UPDATED, which carry no top-level id)
fall through to the timestamp-and-random fallback.  `nowMs` models Date.now()
and `rand` models Math.random().toString(36).substring(7). -/
def getWebhookId (p : FourthwallWebhookPayload) (nowMs : Nat) (rand : String) : String :=
  match p with
  | .orderPlaced o => o.id
  | .giftPurchase g => g.id
  | .donation d => d.id
  | .productCreated pc => pc.id
  | .subscriptionPurchased s => s.id
  | .subscriptionChanged s => s.id
  | .subscriptionExpired s => s.id
  | .thankYouSent t => t.id
  | .newsletterSubscribed n => "newsletter_" ++ n.email ++ "_" ++ toString nowMs
  | .platformAppDisconnected a => "app_disconnect_" ++ a.appId ++ "_" ++ a.shopId
  | .orderUpdated _ => "webhook_" ++ toString nowMs ++ "_" ++ rand
  | .productUpdated _ => "webhook_" ++ toString nowMs ++ "_" ++ rand

/-- True exactly for the payload shapes whose getWebhookId result depends only
on payload fields (neither on Date.now() nor on Math.random()). -/
def webhookIdIsDeterministic : FourthwallWebhookPayload → Bool
  | .orderUpdated _ => false
  | .productUpdated _ => false
  | .newsletterSubscribed _ => false
  | _ => true

/-!
The webhook ingestion pipeline (fourthwall.ts lines 27-173).
-/

/-- An incoming HTTP request to POST /webhooks/fourthwall.  `jsonBody` is the
result of JSON.parse on `rawBody` (`none` models a parse exception); the model
carries it alongside the raw text because signature verification runs over the
raw bytes while validation runs over the parsed value. -/
structure WebhookRequest where
  contentType : String
  rawBody : String
  signatureHeader : Option String
  jsonBody : Option Json

/-- The worker environment bindings the route reads. -/
structure WebhookEnv where
  secret : Option String

/-- The JSON response shape of the route, one optional field per key that any
branch of the handler writes. -/
structure WebhookResponse where
  status : Nat
  success : Bool := false
  already_processed : Bool := false
  webhook_id : Option String := none
  event_type : Option String := none
  processed_at : Option String := none
  error : Option String := none
  message : Option String := none
  hasDetails : Bool := false
deriving DecidableEq, Repr

/-- The catch-all branch of the route (fourthwall.ts lines 166-172): a 500
response whose body carries a generic error field plus a message field holding
the thrown exception's own message text. -/
def internalErrorResponse (exceptionMessage : String) : WebhookResponse :=
  { status := 500
    error := some "Internal server error"
    message := some exceptionMessage }

/-- Embedding of the POST /webhooks/fourthwall handler (fourthwall.ts lines
27-164): content-type check, signature presence, secret presence, signature
verification, JSON parse, schema validation, idempotency check, durable
webhook-event insert, handler dispatch, success response.
`hmacSha256Base64` is the uninterpreted digest model, `nowMs` is Date.now()
in milliseconds and `rand` models Math.random().toString(36).substring(7). -/
def postWebhook (hmacSha256Base64 : String → String → String) (db : Db)
    (req : WebhookRequest) (env : WebhookEnv) (nowMs : Nat) (rand : String) :
    Db × WebhookResponse :=
  if !(jsIncludes req.contentType "application/json") then
    (db, { status := 415, error := some "Content-Type must be application/json" })
  else
    let signature := req.signatureHeader.getD ""
    if signature = "" then
      (db, { status := 401,
             error := some "Missing webhook signature (X-Fourthwall-Hmac-SHA256 header required)" })
    else
      match env.secret with
      | none => (db, { status := 500, error := some "Webhook secret not configured" })
      | some secret =>
        if !(verifyWebhookSignature hmacSha256Base64 req.rawBody signature secret) then
          (db, { status := 401, error := some "Invalid signature" })
        else
          match req.jsonBody with
          | none => (db, { status := 400, error := some "Invalid JSON payload" })
          | some parsed =>
            match fourthwallSafeParse parsed with
            | none => (db, { status := 400, error := some "Invalid payload format",
                             hasDetails := true })
            | some payload =>
              let webhookId := getWebhookId payload nowMs rand
              if webhookExists db webhookId then
                (db, { status := 200, success := true, already_processed := true,
                       webhook_id := some webhookId })
              else
                let db1 := insertWebhookEvent db
                  { id := webhookId, event_type := payload.eventType,
                    payload := req.rawBody, signature := signature,
                    processed_at := nowMs / 1000 } (nowMs / 1000)
                let db2 := dispatchWebhook db1 payload (nowMs / 1000)
                (db2, { status := 200, success := true,
                        webhook_id := some webhookId,
                        event_type := some payload.eventType,
                        processed_at := some (toString nowMs) })

/-!
The analytics/ecommerce query layer (src/lib/db/analytics.ts).  Each query is
parameterized by the cutoff timestamp (the source computes
`cutoff = now - days * 86400` and filters `timestamp > cutoff`); modelling the
cutoff directly keeps Date.now() explicit without changing any comparison.
-/

/-- The rows the revenue/count/top-product queries range over:
event_name = 'purchase' AND timestamp > cutoff. -/
def purchaseRowsInWindow (db : Db) (cutoff : Nat) : List EcommerceRow :=
  db.ecommerce_events.filter (fun r => r.event_name == "purchase" && decide (cutoff < r.timestamp))

/-- Embedding of getTotalRevenue (analytics.ts lines 305-322):
COALESCE(SUM(value), 0) over purchase rows in the window; SQL SUM skips NULL
values, so a NULL value contributes 0. -/
def getTotalRevenue (db : Db) (cutoff : Nat) : Rat :=
  ((purchaseRowsInWindow db cutoff).map (fun r => r.value.getD 0)).sum

/-- Embedding of getPurchaseCount (analytics.ts lines 330-347):
COUNT(*) over purchase rows in the window. -/
def getPurchaseCount (db : Db) (cutoff : Nat) : Nat :=
  (purchaseRowsInWindow db cutoff).length

/-- Embedding of getAverageOrderValue (analytics.ts lines 355-373):
AVG(value) over purchase rows in the window with value IS NOT NULL, and
`result?.avg_value || 0` when the aggregate is NULL (no qualifying rows). -/
def getAverageOrderValue (db : Db) (cutoff : Nat) : Rat :=
  if ((purchaseRowsInWindow db cutoff).filterMap (fun r => r.value)).length = 0 then 0
  else ((purchaseRowsInWindow db cutoff).filterMap (fun r => r.value)).sum /
    ((((purchaseRowsInWindow db cutoff).filterMap (fun r => r.value)).length : Nat) : Rat)

/-- The grouping key used by getTopProducts:
json_extract(ecommerce_data, item 0 item_id / item_name); extraction yields
NULL when the items array is empty. -/
def topProductKey (r : EcommerceRow) : Option String × Option String :=
  ((r.ecommerce_data.items.head?).map (fun it => it.item_id),
   (r.ecommerce_data.items.head?).map (fun it => it.item_name))

/-- SQL SUM over a group: NULL when every summand is NULL, otherwise the sum of
the non-NULL summands. -/
def sqlSum (vs : List (Option Rat)) : Option Rat :=
  let nonNull := vs.filterMap id
  if nonNull.isEmpty then none else some nonNull.sum

/-- A result row of getTopProducts. -/
structure TopProductRow where
  item_id : Option String
  item_name : Option String
  purchases : Nat
  revenue : Option Rat
deriving DecidableEq, Repr

/-- ORDER BY revenue DESC: `a` may precede `b` when its revenue is at least
`b`'s, with SQL NULL sorting below every number and so appearing last. -/
def revenueDescLe (a b : TopProductRow) : Bool :=
  match a.revenue, b.revenue with
  | none, none => true
  | none, some _ => false
  | some _, none => true
  | some x, some y => decide (y ≤ x)

def insertByRevenueDesc (x : TopProductRow) : List TopProductRow → List TopProductRow
  | [] => [x]
  | y :: ys => if revenueDescLe x y then x :: y :: ys else y :: insertByRevenueDesc x ys

/-- The ORDER BY revenue DESC step (any sort satisfying the ordering models the
SQL clause, whose tie order is unspecified). -/
def sortByRevenueDesc : List TopProductRow → List TopProductRow
  | [] => []
  | x :: xs => insertByRevenueDesc x (sortByRevenueDesc xs)

/-- The GROUP BY stage of getTopProducts: one result row per distinct
(first item id, first item name) key among the purchase rows in the window,
counting the rows and SUMming their value per group. -/
def topProductGroups (db : Db) (cutoff : Nat) : List TopProductRow :=
  ((purchaseRowsInWindow db cutoff).map topProductKey).dedup.map (fun k =>
    { item_id := k.1, item_name := k.2,
      purchases := ((purchaseRowsInWindow db cutoff).filter
        (fun r => decide (topProductKey r = k))).length,
      revenue := sqlSum (((purchaseRowsInWindow db cutoff).filter
        (fun r => decide (topProductKey r = k))).map (fun r => r.value)) })

/-- Embedding of getTopProducts (analytics.ts lines 415-442): group the
purchase rows in the window by the first item's id and name extracted from the
ecommerce_data JSON, count rows and SUM(value) per group, order by revenue
descending, and LIMIT to the caller-supplied bound. -/
def getTopProducts (db : Db) (cutoff : Nat) (limit : Nat) : List TopProductRow :=
  (sortByRevenueDesc (topProductGroups db cutoff)).take limit

/-!
Theorems for the claims, with shared helper lemmas.
-/

lemma getWebhookId_of_deterministic (p : FourthwallWebhookPayload)
    (n1 n2 : Nat) (r1 r2 : String) (h : webhookIdIsDeterministic p = true) :
    getWebhookId p n1 r1 = getWebhookId p n2 r2 := by
  cases p <;> first
    | rfl
    | simp [webhookIdIsDeterministic] at h

/-- C3 (amended): getWebhookId is deterministic — computed only from stable
payload fields — for the nine payload shapes carrying a top-level id and for
PLATFORM_APP_DISCONNECTED; for NEWSLETTER_SUBSCRIBED the key incorporates
Date.now(), and ORDER_UPDATED / PRODUCT_UPDATED fall through to the
timestamp-and-random fallback, so redelivery of those shapes at a different
time yields a different key. -/
theorem webhook_id_deterministic_for_stable_shapes
    (p : FourthwallWebhookPayload) (n1 n2 : Nat) (r1 r2 : String)
    (h : webhookIdIsDeterministic p = true) :
    getWebhookId p n1 r1 = getWebhookId p n2 r2 :=
  getWebhookId_of_deterministic p n1 n2 r1 r2 h

/-- C3 witness: a PLATFORM_APP_DISCONNECTED payload keeps the same key across
two calls at different times. -/
theorem webhook_id_deterministic_witness :
    webhookIdIsDeterministic
      (FourthwallWebhookPayload.platformAppDisconnected ⟨"app-1", "shop-1"⟩) = true ∧
    getWebhookId (FourthwallWebhookPayload.platformAppDisconnected ⟨"app-1", "shop-1"⟩) 1000 "r1" =
      getWebhookId (FourthwallWebhookPayload.platformAppDisconnected ⟨"app-1", "shop-1"⟩) 2000 "r2" :=
  ⟨by decide,
   webhook_id_deterministic_for_stable_shapes
     (FourthwallWebhookPayload.platformAppDisconnected ⟨"app-1", "shop-1"⟩)
     1000 2000 "r1" "r2" (by decide)⟩

/-- C3 counterexample: a recognized NEWSLETTER_SUBSCRIBED payload receives a
different idempotency key when getWebhookId runs at two different Date.now()
readings, so the key is not determined by the payload alone. -/
theorem webhook_id_nondeterministic_counterexample :
    getWebhookId (FourthwallWebhookPayload.newsletterSubscribed ⟨"a@b.co"⟩) 1000 "r" ≠
      getWebhookId (FourthwallWebhookPayload.newsletterSubscribed ⟨"a@b.co"⟩) 2000 "r" := by
  decide

/-- C6 (amended): ORDER_PLACED and GIFT_PURCHASE both use the raw upstream id
as the purchase transactionId (the gift handler applies no namespace marker),
while SUBSCRIPTION_PURCHASED uses the id behind the SUB_ namespace; hence an
order and a subscription share a transactionId exactly when the order id is
literally SUB_ followed by the subscription id, but an order and a gift with
equal upstream ids always collide. -/
theorem transaction_id_namespacing :
    (∀ p : OrderPlacedPayload, (orderPlacedPurchaseEvent p).transaction_id = some p.id) ∧
    (∀ p : GiftPurchasePayload, (giftPurchaseEvent p).transaction_id = some p.id) ∧
    (∀ p : SubscriptionPayload,
      (subscriptionPurchaseEvent p).transaction_id = some ("SUB_" ++ p.id)) ∧
    (∀ (o : OrderPlacedPayload) (s : SubscriptionPayload),
      ((orderPlacedPurchaseEvent o).transaction_id = (subscriptionPurchaseEvent s).transaction_id
        ↔ o.id = "SUB_" ++ s.id)) ∧
    (∀ (g : GiftPurchasePayload) (o : OrderPlacedPayload),
      ((giftPurchaseEvent g).transaction_id = (orderPlacedPurchaseEvent o).transaction_id
        ↔ g.id = o.id)) := by
  refine ⟨fun p => rfl, fun p => rfl, fun p => rfl, fun o s => ?_, fun g o => ?_⟩
  · simp [orderPlacedPurchaseEvent, subscriptionPurchaseEvent]
  · simp [giftPurchaseEvent, orderPlacedPurchaseEvent]

/-- A concrete ORDER_PLACED payload whose upstream id equals that of the gift
payload below. -/
def orderSameId : OrderPlacedPayload :=
  { id := "abc123", shopId := "shop-1", friendlyId := "FW-1", checkoutId := "chk-1",
    promotionId := none, status := "CONFIRMED", email := "buyer@example.com",
    emailMarketingOptIn := false, username := none, message := none,
    amounts := { subtotal := ⟨50, "USD"⟩, shipping := ⟨5, "USD"⟩, tax := ⟨4.98, "USD"⟩,
                 donation := none, discount := none, total := ⟨59.98, "USD"⟩ },
    billingAddress := { name := "B", address1 := "1 St", address2 := none, city := "C",
                        state := "S", country := "US", zip := "00000", phone := none },
    shippingAddress := { name := "B", address1 := "1 St", address2 := none, city := "C",
                         state := "S", country := "US", zip := "00000", phone := none },
    offers := [], source := SourceType.order,
    createdAt := "2024-01-01", updatedAt := "2024-01-01" }

/-- A concrete GIFT_PURCHASE payload with the same upstream id as orderSameId. -/
def giftSameId : GiftPurchasePayload :=
  { id := "abc123", shopId := "shop-1", friendlyId := "FW-2", checkoutId := "chk-2",
    recipient := { email := "friend@example.com", message := none },
    sender := { email := "buyer@example.com", username := none },
    status := "CONFIRMED",
    amounts := { subtotal := ⟨20, "USD"⟩, tax := ⟨2, "USD"⟩, discount := none,
                 total := ⟨22, "USD"⟩ },
    billingAddress := { name := "B", address1 := "1 St", address2 := none, city := "C",
                        state := "S", country := "US", zip := "00000", phone := none },
    createdAt := "2024-01-02", updatedAt := "2024-01-02" }

/-- C6 counterexample: an ORDER_PLACED and a GIFT_PURCHASE event of different
types whose normalized purchase events carry the same transactionId, because
the gift handler uses the raw upstream id with no namespace marker. -/
theorem transaction_id_collision_counterexample :
    (FourthwallWebhookPayload.orderPlaced orderSameId).eventType ≠
      (FourthwallWebhookPayload.giftPurchase giftSameId).eventType ∧
    (orderPlacedPurchaseEvent orderSameId).transaction_id =
      (giftPurchaseEvent giftSameId).transaction_id := by
  exact ⟨by decide, rfl⟩

/-- C9: the catch-all branch of the webhook route builds its 500 body with an
`error` field and additionally a `message` field holding the thrown
exception's message text, so internal details do reach the caller (the code
contradicts the documented response contract; the repo's own serverError
utility returns only a generic message). -/
theorem internal_error_response_leaks_message :
    (internalErrorResponse "D1_ERROR: no such table: webhook_events").status = 500 ∧
    (internalErrorResponse "D1_ERROR: no such table: webhook_events").error =
      some "Internal server error" ∧
    (internalErrorResponse "D1_ERROR: no such table: webhook_events").message =
      some "D1_ERROR: no such table: webhook_events" ∧
    (internalErrorResponse "D1_ERROR: no such table: webhook_events").message ≠ none :=
  ⟨rfl, rfl, rfl, by decide⟩

/-- C5: the ORDER_PLACED normalizer copies value, tax, shipping and currency
verbatim from the upstream amounts block (value is amounts.total.value, never
recomputed from items), and builds exactly one item per offer, preserving offer
order as the position index. -/
theorem order_placed_monetary_fidelity (p : OrderPlacedPayload) :
    (orderPlacedPurchaseEvent p).value = some p.amounts.total.value ∧
    (orderPlacedPurchaseEvent p).tax = some p.amounts.tax.value ∧
    (orderPlacedPurchaseEvent p).shipping = some p.amounts.shipping.value ∧
    (orderPlacedPurchaseEvent p).currency = some p.amounts.total.currency ∧
    (orderPlacedPurchaseEvent p).ecommerce_data.value = p.amounts.total.value ∧
    (orderPlacedPurchaseEvent p).ecommerce_data.items.length = p.offers.length ∧
    ∀ (i : Nat) (hi : i < p.offers.length),
      (orderPlacedPurchaseEvent p).ecommerce_data.items[i]? =
        some { item_id := (p.offers.get ⟨i, hi⟩).variant.sku
               item_name := (p.offers.get ⟨i, hi⟩).name
               price := (p.offers.get ⟨i, hi⟩).variant.unitPrice.value
               quantity := (p.offers.get ⟨i, hi⟩).variant.quantity
               item_brand := some "Store"
               item_category := some (p.offers.get ⟨i, hi⟩).slug
               index := some i } := by
  refine ⟨rfl, rfl, rfl, rfl, rfl, by simp [orderPlacedPurchaseEvent], fun i hi => ?_⟩
  have hlen : i < ((orderPlacedPurchaseEvent p).ecommerce_data.items).length := by
    simpa [orderPlacedPurchaseEvent] using hi
  rw [List.getElem?_eq_getElem hlen]
  simp [orderPlacedPurchaseEvent, List.getElem_mapIdx, List.get_eq_getElem]

/-- The ORDER_PLACED payload of the spec's monetary-fidelity example: one offer
(sku SHIRT-1, unit price 29.99, quantity 2) and amounts.total.value 59.98 USD. -/
def orderFidelityExample : OrderPlacedPayload :=
  { id := "order-456", shopId := "shop-1", friendlyId := "FW-456", checkoutId := "chk-456",
    promotionId := none, status := "CONFIRMED", email := "buyer@example.com",
    emailMarketingOptIn := true, username := none, message := none,
    amounts := { subtotal := ⟨59.98, "USD"⟩, shipping := ⟨0, "USD"⟩, tax := ⟨0, "USD"⟩,
                 donation := none, discount := none, total := ⟨59.98, "USD"⟩ },
    billingAddress := { name := "B", address1 := "1 St", address2 := none, city := "C",
                        state := "S", country := "US", zip := "00000", phone := none },
    shippingAddress := { name := "B", address1 := "1 St", address2 := none, city := "C",
                         state := "S", country := "US", zip := "00000", phone := none },
    offers := [{ id := "off-1", name := "Shirt", slug := "shirt", description := none,
                 primaryImage := none,
                 variant := { id := "var-1", name := "Shirt M", sku := "SHIRT-1",
                              unitPrice := ⟨29.99, "USD"⟩, quantity := 2,
                              price := ⟨59.98, "USD"⟩, attributes := none } }],
    source := SourceType.order,
    createdAt := "2024-01-01", updatedAt := "2024-01-01" }

/-- C5 witness: on the spec's example payload the normalized event carries
value 59.98 USD and one item with quantity 2 at position index 0. -/
theorem order_placed_monetary_fidelity_witness :
    (orderPlacedPurchaseEvent orderFidelityExample).value = some (59.98 : Rat) ∧
    (orderPlacedPurchaseEvent orderFidelityExample).currency = some "USD" ∧
    (orderPlacedPurchaseEvent orderFidelityExample).ecommerce_data.items.length = 1 ∧
    (orderPlacedPurchaseEvent orderFidelityExample).ecommerce_data.items[0]? =
      some { item_id := "SHIRT-1", item_name := "Shirt", price := (29.99 : Rat),
             quantity := 2, item_brand := some "Store", item_category := some "shirt",
             index := some 0 } := by
  obtain ⟨h1, -, -, h4, -, h6, h7⟩ := order_placed_monetary_fidelity orderFidelityExample
  exact ⟨h1.trans rfl, h4.trans rfl, h6.trans rfl, (h7 0 (by decide)).trans rfl⟩

lemma filterMap_value_of_no_null (rows : List EcommerceRow)
    (h : ∀ r ∈ rows, r.value ≠ none) :
    rows.filterMap (fun r => r.value) = rows.map (fun r => r.value.getD 0) := by
  induction rows with
  | nil => rfl
  | cons x xs ih =>
    have hx := h x (List.mem_cons_self x xs)
    match hv : x.value with
    | none => exact absurd hv hx
    | some v =>
      simp only [List.filterMap_cons, List.map_cons, hv, Option.getD_some]
      exact congrArg (v :: ·) (ih (fun r hr => h r (List.mem_cons_of_mem x hr)))

/-- C7 (amended): when every purchase row in the window has a non-NULL value,
getAverageOrderValue equals getTotalRevenue divided by getPurchaseCount over
the same rows, and it is 0 (not an error) when the purchase count is zero; in
general the average divides by the number of rows with non-NULL value only,
because the query filters value IS NOT NULL while the count does not. -/
theorem average_order_value_eq_revenue_div_count (db : Db) (cutoff : Nat)
    (h : ∀ r ∈ purchaseRowsInWindow db cutoff, r.value ≠ none) :
    getAverageOrderValue db cutoff =
      getTotalRevenue db cutoff / (getPurchaseCount db cutoff : Rat) ∧
    (getPurchaseCount db cutoff = 0 → getAverageOrderValue db cutoff = 0) := by
  constructor
  · unfold getAverageOrderValue getTotalRevenue getPurchaseCount
    rw [filterMap_value_of_no_null _ h, List.length_map]
    by_cases hz : (purchaseRowsInWindow db cutoff).length = 0
    · rw [List.length_eq_zero] at hz
      simp [hz]
    · rw [if_neg hz]
  · intro hc
    unfold getPurchaseCount at hc
    unfold getAverageOrderValue
    rw [filterMap_value_of_no_null _ h, List.length_map, if_pos hc]

/-- A window holding two purchase rows, one of which was stored with a NULL
value (as insertEcommerceEvent does for a 0 amount) and one with value 10. -/
def dbMixedNullValues : Db :=
  ⟨[],
   [{ event_name := "purchase", path := none, locale := none, currency := some "USD",
      value := none, transaction_id := some "t0", tax := none, shipping := none,
      coupon := none,
      ecommerce_data := { event_name := "purchase", transaction_id := "t0",
                          currency := "USD", value := 0, tax := none, shipping := none,
                          affiliation := "Fourthwall", items := [] },
      timestamp := 10, user_agent := none, country := none },
    { event_name := "purchase", path := none, locale := none, currency := some "USD",
      value := some 10, transaction_id := some "t1", tax := none, shipping := none,
      coupon := none,
      ecommerce_data := { event_name := "purchase", transaction_id := "t1",
                          currency := "USD", value := 10, tax := none, shipping := none,
                          affiliation := "Fourthwall", items := [] },
      timestamp := 10, user_agent := none, country := none }]⟩

/-- C7 counterexample: with one NULL-valued and one 10-valued purchase row in
the window, the average-order-value query returns 10 (it averages only the
non-NULL values) while revenue divided by purchase count is 10 / 2 = 5. -/
theorem average_order_value_counterexample :
    getAverageOrderValue dbMixedNullValues 0 ≠
      getTotalRevenue dbMixedNullValues 0 / (getPurchaseCount dbMixedNullValues 0 : Rat) := by
  norm_num [getAverageOrderValue, getTotalRevenue, getPurchaseCount, purchaseRowsInWindow,
    dbMixedNullValues, List.filter, List.filterMap]

/-- A window holding a single purchase row with a non-NULL value. -/
def dbOnePurchase : Db :=
  ⟨[],
   [{ event_name := "purchase", path := none, locale := none, currency := some "USD",
      value := some 10, transaction_id := some "t1", tax := none, shipping := none,
      coupon := none,
      ecommerce_data := { event_name := "purchase", transaction_id := "t1",
                          currency := "USD", value := 10, tax := none, shipping := none,
                          affiliation := "Fourthwall", items := [] },
      timestamp := 10, user_agent := none, country := none }]⟩

/-- C7 witness: on a window whose purchase rows all have non-NULL values, the
average equals revenue over count. -/
theorem average_order_value_witness :
    (∀ r ∈ purchaseRowsInWindow dbOnePurchase 0, r.value ≠ none) ∧
    getAverageOrderValue dbOnePurchase 0 =
      getTotalRevenue dbOnePurchase 0 / (getPurchaseCount dbOnePurchase 0 : Rat) :=
  ⟨by decide, (average_order_value_eq_revenue_div_count dbOnePurchase 0 (by decide)).1⟩

/-- C10: insertEcommerceEvent binds every optional numeric column through
`value || null`, so a supplied 0 is stored as NULL; a purchase event inserted
with value 0 is therefore counted by getPurchaseCount but contributes nothing
to getTotalRevenue and is excluded from the average of getAverageOrderValue. -/
theorem zero_value_purchase_stored_null (db : Db) (e : InsertEcommerceEvent)
    (nowSec cutoff : Nat) (hname : e.event_name = "purchase")
    (hval : e.value = some 0) (hts : cutoff < nowSec) :
    ∃ r : EcommerceRow,
      (insertEcommerceEvent db e nowSec).ecommerce_events = r :: db.ecommerce_events ∧
      r.value = none ∧
      (e.tax = some 0 → r.tax = none) ∧
      (e.shipping = some 0 → r.shipping = none) ∧
      getPurchaseCount (insertEcommerceEvent db e nowSec) cutoff
        = getPurchaseCount db cutoff + 1 ∧
      getTotalRevenue (insertEcommerceEvent db e nowSec) cutoff
        = getTotalRevenue db cutoff ∧
      getAverageOrderValue (insertEcommerceEvent db e nowSec) cutoff
        = getAverageOrderValue db cutoff := by
  have hwin : purchaseRowsInWindow (insertEcommerceEvent db e nowSec) cutoff =
      { event_name := e.event_name, path := jsStrOrNull e.path,
        locale := jsStrOrNull e.locale, currency := jsStrOrNull e.currency,
        value := jsNumOrNull e.value, transaction_id := jsStrOrNull e.transaction_id,
        tax := jsNumOrNull e.tax, shipping := jsNumOrNull e.shipping,
        coupon := jsStrOrNull e.coupon, ecommerce_data := e.ecommerce_data,
        timestamp := nowSec, user_agent := jsStrOrNull e.user_agent,
        country := jsStrOrNull e.country } :: purchaseRowsInWindow db cutoff := by
    unfold purchaseRowsInWindow insertEcommerceEvent
    rw [List.filter_cons]
    simp [hname, hts]
  have hnone : jsNumOrNull e.value = none := by
    rw [hval]
    simp [jsNumOrNull]
  refine ⟨_, rfl, hnone, ?_, ?_, ?_, ?_, ?_⟩
  · intro htax
    rw [htax]
    simp [jsNumOrNull]
  · intro hship
    rw [hship]
    simp [jsNumOrNull]
  · unfold getPurchaseCount
    rw [hwin, List.length_cons]
  · unfold getTotalRevenue
    rw [hwin, List.map_cons, List.sum_cons, hnone, Option.getD_none, zero_add]
  · unfold getAverageOrderValue
    rw [hwin, List.filterMap_cons, hnone]

/-- A purchase event whose monetary fields are all 0 (a free order). -/
def zeroValueInsert : InsertEcommerceEvent :=
  { event_name := "purchase", transaction_id := some "free-1", currency := some "USD",
    value := some 0, tax := some 0, shipping := some 0,
    ecommerce_data := { event_name := "purchase", transaction_id := "free-1",
                        currency := "USD", value := 0, tax := some 0, shipping := some 0,
                        affiliation := "Fourthwall", items := [] } }

/-- C10 witness: inserting the zero-valued purchase into the single-purchase
window bumps the count to 2, leaves revenue at 10, and leaves the average at
10 (the NULL-valued row is excluded from it). -/
theorem zero_value_purchase_stored_null_witness :
    getPurchaseCount (insertEcommerceEvent dbOnePurchase zeroValueInsert 10) 0
        = getPurchaseCount dbOnePurchase 0 + 1 ∧
    getTotalRevenue (insertEcommerceEvent dbOnePurchase zeroValueInsert 10) 0
        = getTotalRevenue dbOnePurchase 0 ∧
    getAverageOrderValue (insertEcommerceEvent dbOnePurchase zeroValueInsert 10) 0
        = getAverageOrderValue dbOnePurchase 0 := by
  obtain ⟨r, -, -, -, -, h5, h6, h7⟩ :=
    zero_value_purchase_stored_null dbOnePurchase zeroValueInsert 10 0 rfl rfl (by decide)
  exact ⟨h5, h6, h7⟩

lemma revenueDescLe_total (a b : TopProductRow) :
    (revenueDescLe a b || revenueDescLe b a) = true := by
  unfold revenueDescLe
  cases a.revenue with
  | none => cases b.revenue <;> simp
  | some x =>
    cases b.revenue with
    | none => simp
    | some y =>
      by_cases h : y ≤ x
      · simp [h]
      · simp [le_of_not_le h]

lemma revenueDescLe_trans (a b c : TopProductRow)
    (h1 : revenueDescLe a b = true) (h2 : revenueDescLe b c = true) :
    revenueDescLe a c = true := by
  unfold revenueDescLe at h1 h2 ⊢
  cases ha : a.revenue with
  | none =>
    rw [ha] at h1
    cases hb : b.revenue with
    | none =>
      rw [hb] at h2
      cases hc : c.revenue with
      | none => rfl
      | some z => rw [hc] at h2; exact absurd h2 (by simp)
    | some y => rw [hb] at h1; exact absurd h1 (by simp)
  | some x =>
    cases hc : c.revenue with
    | none => rfl
    | some z =>
      rw [ha] at h1
      rw [hc] at h2
      cases hb : b.revenue with
      | none => rw [hb] at h2; exact absurd h2 (by simp)
      | some y =>
        rw [hb] at h1
        rw [hb] at h2
        simp only [decide_eq_true_eq] at h1 h2 ⊢
        exact le_trans h2 h1

lemma mem_insertByRevenueDesc (x y : TopProductRow) (l : List TopProductRow) :
    y ∈ insertByRevenueDesc x l ↔ y = x ∨ y ∈ l := by
  induction l with
  | nil => simp [insertByRevenueDesc]
  | cons z zs ih =>
    unfold insertByRevenueDesc
    by_cases hc : revenueDescLe x z = true
    · rw [if_pos hc]
      simp only [List.mem_cons]
    · rw [if_neg hc]
      simp only [List.mem_cons, ih]
      tauto

lemma pairwise_insertByRevenueDesc (x : TopProductRow) (l : List TopProductRow)
    (hl : List.Pairwise (fun a b => revenueDescLe a b = true) l) :
    List.Pairwise (fun a b => revenueDescLe a b = true) (insertByRevenueDesc x l) := by
  induction l with
  | nil => simp [insertByRevenueDesc]
  | cons z zs ih =>
    rw [List.pairwise_cons] at hl
    obtain ⟨hz, hzs⟩ := hl
    unfold insertByRevenueDesc
    by_cases hc : revenueDescLe x z = true
    · rw [if_pos hc]
      refine List.Pairwise.cons ?_ (List.Pairwise.cons hz hzs)
      intro w hw
      rcases List.mem_cons.mp hw with rfl | hw2
      · exact hc
      · exact revenueDescLe_trans x z w hc (hz w hw2)
    · rw [if_neg hc]
      refine List.Pairwise.cons ?_ (ih hzs)
      intro w hw
      rcases (mem_insertByRevenueDesc x w zs).mp hw with heq | hw2
      · rw [heq]
        have ht := revenueDescLe_total x z
        rw [Bool.or_eq_true] at ht
        exact ht.resolve_left hc
      · exact hz w hw2

lemma pairwise_sortByRevenueDesc (l : List TopProductRow) :
    List.Pairwise (fun a b => revenueDescLe a b = true) (sortByRevenueDesc l) := by
  induction l with
  | nil => simp [sortByRevenueDesc]
  | cons x xs ih => exact pairwise_insertByRevenueDesc x (sortByRevenueDesc xs) ih

lemma mem_sortByRevenueDesc (y : TopProductRow) (l : List TopProductRow) :
    y ∈ sortByRevenueDesc l ↔ y ∈ l := by
  induction l with
  | nil => simp [sortByRevenueDesc]
  | cons x xs ih =>
    unfold sortByRevenueDesc
    rw [mem_insertByRevenueDesc, ih, List.mem_cons]

/-- C8 (amended): getTopProducts groups the purchase rows of the window by the
first line item's identifier and name only (json_extract reads items at index 0,
not every item of the row), orders the groups by summed row value descending,
and returns at most `limit` of them; every returned group key is the first-item
key of some purchase row in the window. -/
theorem top_products_shape (db : Db) (cutoff limit : Nat) :
    (getTopProducts db cutoff limit).length ≤ limit ∧
    List.Pairwise (fun a b => revenueDescLe a b = true) (getTopProducts db cutoff limit) ∧
    ∀ e ∈ getTopProducts db cutoff limit,
      ∃ r ∈ purchaseRowsInWindow db cutoff, topProductKey r = (e.item_id, e.item_name) := by
  refine ⟨?_, ?_, ?_⟩
  · unfold getTopProducts
    rw [List.length_take]
    exact min_le_left _ _
  · unfold getTopProducts
    exact List.Pairwise.sublist (List.take_sublist _ _) (pairwise_sortByRevenueDesc _)
  · intro e he
    unfold getTopProducts at he
    have h1 := List.mem_of_mem_take he
    have h2 := (mem_sortByRevenueDesc e _).mp h1
    unfold topProductGroups at h2
    obtain ⟨k, hk, hke⟩ := List.mem_map.mp h2
    have hk2 : k ∈ (purchaseRowsInWindow db cutoff).map topProductKey := List.mem_dedup.mp hk
    obtain ⟨r, hr, hkr⟩ := List.mem_map.mp hk2
    refine ⟨r, hr, ?_⟩
    rw [hkr, ← hke]

/-- A window with a single purchase row whose ecommerce_data carries two line
items (SHIRT first, MUG second). -/
def dbTwoItemRow : Db :=
  ⟨[],
   [{ event_name := "purchase", path := none, locale := none, currency := some "USD",
      value := some 5, transaction_id := some "t1", tax := none, shipping := none,
      coupon := none,
      ecommerce_data := { event_name := "purchase", transaction_id := "t1",
                          currency := "USD", value := 5, tax := none, shipping := none,
                          affiliation := "Fourthwall",
                          items := [{ item_id := "SHIRT", item_name := "Shirt", price := 5,
                                      quantity := 1, item_brand := none,
                                      item_category := none, index := some 0 },
                                    { item_id := "MUG", item_name := "Mug", price := 3,
                                      quantity := 1, item_brand := none,
                                      item_category := none, index := some 1 }] },
      timestamp := 10, user_agent := none, country := none }]⟩

/-- C8 counterexample: a purchase row carries a MUG line item, yet with a limit
of 10 the query returns a single group and no returned group is keyed by MUG —
the grouping reads only items at index 0, not every item of each purchase row
as the claim states. -/
theorem top_products_counterexample :
    (∃ r ∈ purchaseRowsInWindow dbTwoItemRow 0,
       ∃ it ∈ r.ecommerce_data.items, it.item_id = "MUG") ∧
    (getTopProducts dbTwoItemRow 0 10).length = 1 ∧
    ∀ e ∈ getTopProducts dbTwoItemRow 0 10, e.item_id ≠ some "MUG" := by
  decide

/-- A window with a single purchase row (NULL value) whose first item is SHIRT. -/
def dbOneItemRow : Db :=
  ⟨[],
   [{ event_name := "purchase", path := none, locale := none, currency := some "USD",
      value := none, transaction_id := some "t1", tax := none, shipping := none,
      coupon := none,
      ecommerce_data := { event_name := "purchase", transaction_id := "t1",
                          currency := "USD", value := 0, tax := none, shipping := none,
                          affiliation := "Fourthwall",
                          items := [{ item_id := "SHIRT", item_name := "Shirt", price := 5,
                                      quantity := 1, item_brand := none,
                                      item_category := none, index := some 0 }] },
      timestamp := 10, user_agent := none, country := none }]⟩

/-- C8 witness: on a concrete window the query returns at most the limit and
the returned group is keyed by the first item of a purchase row in the window. -/
theorem top_products_shape_witness :
    (getTopProducts dbOneItemRow 0 5).length ≤ 5 ∧
    ({ item_id := some "SHIRT", item_name := some "Shirt", purchases := 1,
       revenue := none } : TopProductRow) ∈ getTopProducts dbOneItemRow 0 5 ∧
    (∃ r ∈ purchaseRowsInWindow dbOneItemRow 0,
       topProductKey r = (some "SHIRT", some "Shirt")) := by
  obtain ⟨h1, -, h3⟩ := top_products_shape dbOneItemRow 0 5
  exact ⟨h1, by decide,
         h3 { item_id := some "SHIRT", item_name := some "Shirt", purchases := 1,
              revenue := none } (by decide)⟩

lemma verifyWebhookSignature_of_match (hmac : String → String → String)
    (body s secret : String) (h : hmac secret body = s) :
    verifyWebhookSignature hmac body s secret = true := by
  unfold verifyWebhookSignature verifyWebhookSignatureSafe
  rw [timingSafeEqual_iff]
  exact h

/-- C4: a JSON payload whose type field is not one of the twelve known tags is
rejected by schema validation (the discriminated-union dispatch fails), and the
webhook endpoint—reached with correct content type and a valid signature—
responds 400 and creates zero webhook_events and zero ecommerce_events rows
(the returned state is the input state). -/
theorem unknown_event_tag_rejected (hmac : String → String → String) (db : Db)
    (req : WebhookRequest) (env : WebhookEnv) (nowMs : Nat) (rand : String)
    (j : Json) (s secret : String)
    (hbody : req.jsonBody = some j)
    (htag : ∀ t : String, j.getField "type" = some (Json.str t) → t ∉ knownEventTags)
    (hct : jsIncludes req.contentType "application/json" = true)
    (hsig : req.signatureHeader = some s) (hs : s ≠ "")
    (hsecret : env.secret = some secret) (hmacok : hmac secret req.rawBody = s) :
    fourthwallSafeParse j = none ∧
    postWebhook hmac db req env nowMs rand =
      (db, { status := 400, error := some "Invalid payload format", hasDetails := true }) := by
  have hparse : fourthwallSafeParse j = none := by
    unfold fourthwallSafeParse
    cases hj : j.getField "type" with
    | none => rfl
    | some v =>
      cases v with
      | str t =>
        have hnot := htag t hj
        simp only [knownEventTags, List.mem_cons, List.not_mem_nil, or_false, not_or] at hnot
        obtain ⟨h1, h2, h3, h4, h5, h6, h7, h8, h9, h10, h11, h12⟩ := hnot
        simp [h1, h2, h3, h4, h5, h6, h7, h8, h9, h10, h11, h12]
      | null => rfl
      | bool b => rfl
      | num q => rfl
      | arr xs => rfl
      | obj fs => rfl
  refine ⟨hparse, ?_⟩
  have hv := verifyWebhookSignature_of_match hmac req.rawBody s secret hmacok
  unfold postWebhook
  rw [hct, hsig, hsecret, hbody]
  simp only [Bool.not_true, Bool.false_eq_true, if_false, Option.getD_some]
  rw [if_neg hs, hv]
  simp only [Bool.not_true, Bool.false_eq_true, if_false, hparse]

/-- A payload whose type tag is outside the twelve known tags. -/
def unknownTagJson : Json :=
  Json.obj [("type", Json.str "SOMETHING_NEW"), ("id", Json.str "x-1")]

def unknownTagRequest : WebhookRequest :=
  { contentType := "application/json", rawBody := "RAW",
    signatureHeader := some "SIG", jsonBody := some unknownTagJson }

def witnessEnv : WebhookEnv := { secret := some "whsec" }

/-- A digest model that reproduces the presented test signature. -/
def witnessHmac : String → String → String := fun _ _ => "SIG"

/-- C4 witness: a payload with type SOMETHING_NEW fails validation and the
endpoint answers 400 leaving the database untouched. -/
theorem unknown_event_tag_rejected_witness :
    fourthwallSafeParse unknownTagJson = none ∧
    postWebhook witnessHmac ⟨[], []⟩ unknownTagRequest witnessEnv 1000 "r" =
      (⟨[], []⟩, { status := 400, error := some "Invalid payload format",
                   hasDetails := true }) := by
  apply unknown_event_tag_rejected witnessHmac ⟨[], []⟩ unknownTagRequest witnessEnv
    1000 "r" unknownTagJson "SIG" "whsec" rfl ?_ (by decide) rfl (by decide) rfl rfl
  intro t ht
  have h2 : some (Json.str "SOMETHING_NEW") = some (Json.str t) := ht
  injection h2 with h3
  injection h3 with h4
  rw [← h4]
  decide

lemma insertWebhookEvent_ecommerce_events (db : Db) (e : InsertWebhookEvent) (t : Nat) :
    (insertWebhookEvent db e t).ecommerce_events = db.ecommerce_events := rfl

lemma dispatchWebhook_webhook_events (db : Db) (p : FourthwallWebhookPayload) (t : Nat) :
    (dispatchWebhook db p t).webhook_events = db.webhook_events := by
  cases p <;> rfl

lemma dispatchWebhook_ecommerce_length (db : Db) (p : FourthwallWebhookPayload) (t : Nat) :
    (dispatchWebhook db p t).ecommerce_events.length ≤ db.ecommerce_events.length + 1 := by
  cases p <;> simp [dispatchWebhook, insertEcommerceEvent, Nat.le_succ]

lemma countP_id_eq_zero_of_not_exists (db : Db) (key : String)
    (h : webhookExists db key = false) :
    db.webhook_events.countP (fun r => r.id == key) = 0 := by
  unfold webhookExists at h
  apply List.countP_eq_zero.mpr
  intro a ha hpa
  cases hfind : List.find? (fun r => r.id == key) db.webhook_events with
  | none => exact List.find?_eq_none.mp hfind a ha hpa
  | some x =>
    rw [hfind] at h
    exact absurd h (by simp)

/-- C1 (amended): for a valid payload whose idempotency key is deterministic
(every shape except ORDER_UPDATED, PRODUCT_UPDATED and NEWSLETTER_SUBSCRIBED,
whose keys incorporate wall-clock time), submitting the identical signed body a
second time yields exactly one webhook_events row for that key and at most one
ecommerce_events row in total, and the second request short-circuits before
persistence and dispatch (state unchanged) with a 200 success response flagged
already_processed. -/
theorem webhook_idempotent_for_deterministic_ids
    (hmac : String → String → String) (db : Db) (req : WebhookRequest)
    (env : WebhookEnv) (n1 n2 : Nat) (r1 r2 : String) (j : Json)
    (payload : FourthwallWebhookPayload) (s secret : String)
    (hct : jsIncludes req.contentType "application/json" = true)
    (hsig : req.signatureHeader = some s) (hs : s ≠ "")
    (hsecret : env.secret = some secret) (hmacok : hmac secret req.rawBody = s)
    (hbody : req.jsonBody = some j) (hparse : fourthwallSafeParse j = some payload)
    (hdet : webhookIdIsDeterministic payload = true)
    (hfresh : webhookExists db (getWebhookId payload n1 r1) = false) :
    (postWebhook hmac db req env n1 r1).snd.status = 200 ∧
    ((postWebhook hmac db req env n1 r1).fst.webhook_events.countP
        (fun r => r.id == getWebhookId payload n1 r1)) = 1 ∧
    (postWebhook hmac db req env n1 r1).fst.ecommerce_events.length
        ≤ db.ecommerce_events.length + 1 ∧
    (postWebhook hmac (postWebhook hmac db req env n1 r1).fst req env n2 r2).fst =
      (postWebhook hmac db req env n1 r1).fst ∧
    (postWebhook hmac (postWebhook hmac db req env n1 r1).fst req env n2 r2).snd =
      { status := 200, success := true, already_processed := true,
        webhook_id := some (getWebhookId payload n1 r1) } := by
  have hv := verifyWebhookSignature_of_match hmac req.rawBody s secret hmacok
  have hrun1 : postWebhook hmac db req env n1 r1 =
      (dispatchWebhook
        (insertWebhookEvent db
          { id := getWebhookId payload n1 r1, event_type := payload.eventType,
            payload := req.rawBody, signature := s, processed_at := n1 / 1000 }
          (n1 / 1000)) payload (n1 / 1000),
       { status := 200, success := true,
         webhook_id := some (getWebhookId payload n1 r1),
         event_type := some payload.eventType,
         processed_at := some (toString n1) }) := by
    unfold postWebhook
    rw [hct, hsig, hsecret, hbody]
    simp only [Bool.not_true, Bool.false_eq_true, if_false, Option.getD_some]
    rw [if_neg hs, hv]
    simp only [Bool.not_true, Bool.false_eq_true, if_false, hparse]
    rw [if_neg (by rw [hfresh]; exact Bool.false_ne_true)]
  have hweb1 : (postWebhook hmac db req env n1 r1).fst.webhook_events =
      { id := getWebhookId payload n1 r1, event_type := payload.eventType,
        payload := req.rawBody, signature := s, processed_at := n1 / 1000,
        created_at := n1 / 1000 } :: db.webhook_events := by
    rw [hrun1]
    exact dispatchWebhook_webhook_events _ _ _
  have hkey2 : getWebhookId payload n2 r2 = getWebhookId payload n1 r1 :=
    getWebhookId_of_deterministic payload n2 n1 r2 r1 hdet
  have hexists1 : webhookExists (postWebhook hmac db req env n1 r1).fst
      (getWebhookId payload n2 r2) = true := by
    unfold webhookExists
    rw [hweb1, hkey2, List.find?_cons_of_pos _ (by exact beq_self_eq_true _)]
    rfl
  have hrun2gen : ∀ db1 : Db, webhookExists db1 (getWebhookId payload n2 r2) = true →
      postWebhook hmac db1 req env n2 r2 =
        (db1, { status := 200, success := true, already_processed := true,
                webhook_id := some (getWebhookId payload n2 r2) }) := by
    intro db1 hex
    unfold postWebhook
    rw [hct, hsig, hsecret, hbody]
    simp only [Bool.not_true, Bool.false_eq_true, if_false, Option.getD_some]
    rw [if_neg hs, hv]
    simp only [Bool.not_true, Bool.false_eq_true, if_false, hparse]
    rw [if_pos hex]
  have hrun2 : postWebhook hmac (postWebhook hmac db req env n1 r1).fst req env n2 r2 =
      ((postWebhook hmac db req env n1 r1).fst,
       { status := 200, success := true, already_processed := true,
         webhook_id := some (getWebhookId payload n1 r1) }) := by
    rw [hrun2gen _ hexists1, hkey2]
  refine ⟨by rw [hrun1], ?_, ?_, by rw [hrun2], by rw [hrun2]⟩
  · rw [hweb1, List.countP_cons_of_pos _ _ (by exact beq_self_eq_true _),
        countP_id_eq_zero_of_not_exists db _ hfresh]
  · rw [hrun1]
    exact le_trans (dispatchWebhook_ecommerce_length _ _ _)
      (by rw [insertWebhookEvent_ecommerce_events])

/-- A valid PLATFORM_APP_DISCONNECTED payload (a deterministic-key shape). -/
def appDisconnectJson : Json :=
  Json.obj [("type", Json.str "PLATFORM_APP_DISCONNECTED"),
            ("appId", Json.str "app-1"), ("shopId", Json.str "shop-1")]

def appDisconnectRequest : WebhookRequest :=
  { contentType := "application/json", rawBody := "RAW",
    signatureHeader := some "SIG", jsonBody := some appDisconnectJson }

/-- C1 witness: submitting the same signed PLATFORM_APP_DISCONNECTED body twice
processes it once and short-circuits the redelivery with already_processed. -/
theorem webhook_idempotent_witness :
    (postWebhook witnessHmac ⟨[], []⟩ appDisconnectRequest witnessEnv 1000 "r1").snd.status
        = 200 ∧
    ((postWebhook witnessHmac ⟨[], []⟩ appDisconnectRequest
        witnessEnv 1000 "r1").fst.webhook_events.countP
      (fun r => r.id == "app_disconnect_app-1_shop-1")) = 1 ∧
    (postWebhook witnessHmac
      (postWebhook witnessHmac ⟨[], []⟩ appDisconnectRequest witnessEnv 1000 "r1").fst
      appDisconnectRequest witnessEnv 2000 "r2").snd =
      { status := 200, success := true, already_processed := true,
        webhook_id := some "app_disconnect_app-1_shop-1" } := by
  obtain ⟨h1, h2, -, -, h5⟩ := webhook_idempotent_for_deterministic_ids
    witnessHmac ⟨[], []⟩ appDisconnectRequest witnessEnv 1000 2000 "r1" "r2"
    appDisconnectJson
    (FourthwallWebhookPayload.platformAppDisconnected ⟨"app-1", "shop-1"⟩)
    "SIG" "whsec" (by decide) rfl (by decide) rfl rfl rfl (by decide) (by decide) rfl
  refine ⟨h1, ?_, ?_⟩
  · exact h2
  · rw [h5]
    decide

/-- A valid NEWSLETTER_SUBSCRIBED payload (its key incorporates Date.now()). -/
def newsletterJson : Json :=
  Json.obj [("type", Json.str "NEWSLETTER_SUBSCRIBED"), ("email", Json.str "a@b.co")]

def newsletterRequest : WebhookRequest :=
  { contentType := "application/json", rawBody := "RAW",
    signatureHeader := some "SIG", jsonBody := some newsletterJson }

/-- C1 counterexample: the identical valid NEWSLETTER_SUBSCRIBED body submitted
twice (at Date.now() readings 1000 and 2000) is processed twice — two
webhook_events rows exist afterwards and the second response is not flagged
already_processed — because the synthesized key embeds the delivery time. -/
theorem webhook_idempotency_counterexample :
    (postWebhook witnessHmac ⟨[], []⟩ newsletterRequest witnessEnv 1000 "r1").snd.status
        = 200 ∧
    (postWebhook witnessHmac
      (postWebhook witnessHmac ⟨[], []⟩ newsletterRequest witnessEnv 1000 "r1").fst
      newsletterRequest witnessEnv 2000 "r2").snd.already_processed = false ∧
    (postWebhook witnessHmac
      (postWebhook witnessHmac ⟨[], []⟩ newsletterRequest witnessEnv 1000 "r1").fst
      newsletterRequest witnessEnv 2000 "r2").fst.webhook_events.length = 2 := by
  decide
